import Mathlib

/-!
Verification development for the Gemini AI Text Toolkit repository.

The repository is a React + TypeScript single-page app.  The parts relevant
here are:

  * services/geminiService.ts  — the Completion Gateway: module-level
    API-key check, a lazily created module-level chat handle, and the three
    operations getChatResponse, processText, resetChat;
  * components/ChatBot.tsx     — the Conversation Session: message list,
    input box, loading flag, handleSend / handleRegenerate / handleClearChat;
  * components/TextProcessor.tsx — the Transform Invoker: inputText, output,
    loading flag, handleAction;
  * constants.ts               — the prompt-template catalog
    (getPredefinedPrompts, getReplyStyles).

Asynchronous handlers are embedded in two phases: a `Start` function covering
the synchronous prefix up to the first `await` (guards, optimistic state
updates, issuing the network request), and a `Finish` function covering the
continuation once the awaited promise settles (with the settlement injected
as an explicit `Except` outcome).  Outbound network traffic is recorded in an
explicit call trace so that theorems can speak about which requests were
issued.  JavaScript values of static type `string` that can in fact be
`undefined` (the SDK response `.text` getter is `string | undefined`) are
embedded as `Option String`.
-/

/-- Role of a chat message, from types.ts: `role: 'user' | 'model'`. -/
inductive Role where
  | user
  | model
deriving DecidableEq, Repr

/-- ChatMessage from types.ts: `{ role, content }`.  `content` is declared
`string` in TypeScript but a model reply is fed from the SDK `.text` getter,
which is `string | undefined`; the embedding keeps the honest type. -/
structure ChatMessage where
  role : Role
  content : Option String
deriving DecidableEq, Repr

/-- The error value thrown by a failed Gateway call (any upstream failure);
its payload is irrelevant to the control flow, which only catches it. -/
structure UpstreamError where
  message : String
deriving DecidableEq, Repr

/-- The slice of the SDK GenerateContentResponse the code reads: the `.text`
getter, of TypeScript type `string | undefined`. -/
structure GenAIResponse where
  text : Option String
deriving DecidableEq, Repr

/-- One outbound interaction of the Gateway (services/geminiService.ts) with
the external service, recorded in a trace. -/
inductive GatewayCall where
  /-- `ai.chats.create({model: 'gemini-2.5-flash', history: []})` — the
  create-new-context path, tagged with the identity of the fresh handle. -/
  | chatCreate (chatId : Nat)
  /-- `chatInstance.sendMessage({ message })` on the handle `chatId`. -/
  | chatSend (chatId : Nat) (message : String)
  /-- `ai.models.generateContent({model, contents})` with the given request
  body. -/
  | generateContent (contents : String)
deriving DecidableEq, Repr

/-- Module-level state of services/geminiService.ts: the API key the
GoogleGenAI client was constructed with, the module variable
`let chat: Chat | null` (chat handles are identified by a counter so that a
fresh handle is distinguishable from a reused one), and the trace of
outbound calls. -/
structure ServiceState where
  apiKey : String
  chat : Option Nat
  nextChatId : Nat
  calls : List GatewayCall
deriving DecidableEq, Repr

/-- Module initialisation of services/geminiService.ts:
`const API_KEY = process.env.API_KEY; if (!API_KEY) throw new Error(...)`,
then `const ai = new GoogleGenAI({apiKey: API_KEY})` and `let chat = null`.
`none` embeds an unset environment variable; the JavaScript truthiness test
`!API_KEY` also rejects a set-but-empty string.  Every Gateway operation
below consumes a `ServiceState`, which only a successful initialisation
produces, so no operation runs without a credential. -/
def initGeminiService (apiKeyEnv : Option String) : Except String ServiceState :=
  match apiKeyEnv with
  | none => .error ("API_KEY environment variable is not set")
  | some key =>
    if key = "" then .error ("API_KEY environment variable is not set")
    else .ok { apiKey := key, chat := none, nextChatId := 0, calls := [] }

/-- getChatInstance from services/geminiService.ts: if `chat` is null, create
a fresh Chat via `ai.chats.create` (recorded in the trace) and store it;
otherwise reuse the stored handle.  Returns the updated state and the handle
used. -/
def getChatInstance (svc : ServiceState) : ServiceState × Nat :=
  match svc.chat with
  | some c => (svc, c)
  | none =>
    ({ svc with
        chat := some svc.nextChatId
        nextChatId := svc.nextChatId + 1
        calls := svc.calls ++ [.chatCreate svc.nextChatId] }, svc.nextChatId)

/-- resetChat from services/geminiService.ts: `chat = null;`. -/
def resetChat (svc : ServiceState) : ServiceState :=
  { svc with chat := none }

/-- The synchronous prefix of getChatResponse: obtain the chat instance and
issue `chatInstance.sendMessage({ message })` (recorded in the trace).  The
await of the returned promise is the suspension point. -/
def getChatResponseSend (message : String) (svc : ServiceState) : ServiceState :=
  let (svc1, cid) := getChatInstance svc
  { svc1 with calls := svc1.calls ++ [.chatSend cid message] }

/-- The value getChatResponse resolves or rejects with, as a function of how
the awaited `sendMessage` promise settled: on fulfilment it returns
`result.text` unchanged (this file has no `??` default), on rejection the
catch block logs and re-throws. -/
def getChatResponseResult (outcome : Except UpstreamError GenAIResponse) :
    Except UpstreamError (Option String) :=
  match outcome with
  | .ok result => .ok result.text
  | .error e => .error e

/-- The JavaScript `String.prototype.trim()` used in the component guards:
strip leading and trailing whitespace.  Embedded structurally over the
character list (the built-in String.trim is definitionally opaque); the
whitespace class is the ASCII subset relevant to the guards. -/
def jsTrim (s : String) : String :=
  String.mk (((s.data.dropWhile Char.isWhitespace).reverse.dropWhile
    Char.isWhitespace).reverse)

/-- The fixed request-body construction of processText:
the template literal prompt + "\n\n---\n\n" + textToProcess. -/
def fullPrompt (prompt textToProcess : String) : String :=
  prompt ++ "\n\n---\n\n" ++ textToProcess

/-- processText from services/geminiService.ts (the module the components
import): builds `fullPrompt`, calls `ai.models.generateContent` on it, and
returns `response.text` unchanged — this file has no `?? ''` default, so a
result that carries no text resolves to `undefined`.  On rejection the catch
block logs and re-throws.  `api` is the external service, mapping the
request body to how the promise settles. -/
def processText (api : String → Except UpstreamError GenAIResponse)
    (prompt textToProcess : String) : Except UpstreamError (Option String) :=
  match api (fullPrompt prompt textToProcess) with
  | .ok response => .ok response.text
  | .error e => .error e

/-- processText from the second copy of the service, src/services/
geminiService.ts (placed under src/src/ here): identical except that it
returns `response.text ?? ''`, defaulting a missing text to the empty
string. -/
def processTextSrc (api : String → Except UpstreamError GenAIResponse)
    (prompt textToProcess : String) : Except UpstreamError String :=
  match api (fullPrompt prompt textToProcess) with
  | .ok response => .ok (response.text.getD (""))
  | .error e => .error e

/-! ## Conversation Session: components/ChatBot.tsx -/

/-- The component state of ChatBot.tsx that the chat claims are about
(`messages`, `input`, `isLoading`), together with the Gateway module state
and the multiset (as a list) of getChatResponse promises that have been
issued but have not settled yet. -/
structure ChatFlow where
  messages : List ChatMessage
  input : String
  isLoading : Bool
  svc : ServiceState
  pending : List String
deriving DecidableEq, Repr

/-- Initial ChatBot state over a freshly initialised service module:
`messages = []`, `input = ''`, `isLoading = false`. -/
def chatInit (apiKey : String) : ChatFlow :=
  { messages := []
    input := ""
    isLoading := false
    svc := { apiKey := apiKey, chat := none, nextChatId := 0, calls := [] }
    pending := [] }

/-- Synchronous prefix of handleSend (ChatBot.tsx): the guard
guarding on a trimmed-empty message or a turn in flight, then append the
user message, clear the input, set the loading flag, and enter
getChatResponse up to its await (create the chat handle if absent and issue
the sendMessage request).  Returns the new state and whether the guard was
passed (whether a turn actually started). -/
def handleSendStart (messageToSend : String) (s : ChatFlow) : ChatFlow × Bool :=
  if jsTrim messageToSend == "" || s.isLoading then (s, false)
  else
    let s1 : ChatFlow := { s with
      messages := s.messages ++ [{ role := .user, content := some messageToSend }]
      input := ""
      isLoading := true }
    ({ s1 with
        svc := getChatResponseSend messageToSend s1.svc
        pending := s1.pending ++ [messageToSend] }, true)

/-- Continuation of handleSend once the awaited getChatResponse promise
settles with `outcome`: on fulfilment append a model message whose content
is the resolved reply text; on rejection the catch block appends a model
message with the localized string `t('chat.errorMessage')`; the finally
block clears the loading flag.  `t` is the localization lookup. -/
def handleSendFinish (outcome : Except UpstreamError GenAIResponse)
    (t : String → String) (s : ChatFlow) : ChatFlow :=
  { s with
    messages := s.messages ++
      [match getChatResponseResult outcome with
       | .ok text => { role := .model, content := text }
       | .error _ => { role := .model, content := some (t ("chat.errorMessage")) }]
    isLoading := false
    pending := s.pending.drop 1 }

/-- A complete run of handleSend with no interleaved events: the start
phase, and, when the guard was passed, the finish phase once the Gateway
promise settles with `outcome`. -/
def handleSendRun (messageToSend : String)
    (outcome : Except UpstreamError GenAIResponse)
    (t : String → String) (s : ChatFlow) : ChatFlow :=
  let (s1, started) := handleSendStart messageToSend s
  if started then handleSendFinish outcome t s1 else s1

/-- handleRegenerate (ChatBot.tsx), run to completion: no-op while loading;
find the most recent user message (`[...messages].reverse().find(...)`); if
none, return; otherwise remove the last message when it is a model reply
(`prev.slice(0, -1)`), and re-invoke handleSend with the found user text
(via `setTimeout(..., 0)`).  A user message is only ever created with a
string content, so the `none` content branch is unreachable in the source;
there JavaScript would fault calling trim on undefined after the removal, so
the embedding returns the post-removal state in that branch. -/
def handleRegenerate (outcome : Except UpstreamError GenAIResponse)
    (t : String → String) (s : ChatFlow) : ChatFlow :=
  if s.isLoading then s
  else
    match s.messages.reverse.find? (fun m => m.role == .user) with
    | none => s
    | some lastUserMessage =>
      let s1 := { s with
        messages :=
          match s.messages.getLast? with
          | some lastMessage =>
            if lastMessage.role == .model then s.messages.dropLast else s.messages
          | none => s.messages }
      match lastUserMessage.content with
      | some text => handleSendRun text outcome t s1
      | none => s1

/-- handleClearChat (ChatBot.tsx): behind `window.confirm` (whose answer is
the `confirmed` argument), reset the message list to `[]` and call
resetChat, discarding the conversational context handle. -/
def handleClearChat (confirmed : Bool) (s : ChatFlow) : ChatFlow :=
  if confirmed then
    { s with messages := [], svc := resetChat s.svc }
  else s

/-- The event-level semantics of the chat page: states reachable from the
initial state by typing into the input box, starting a send, a pending send
settling, regenerating, and clearing the chat.  Start and settlement of a
send are separate steps, so states with an unresolved Gateway promise are
reachable states. -/
inductive ChatReach : ChatFlow → Prop where
  | init (apiKey : String) : ChatReach (chatInit apiKey)
  | setInput (x : String) {s : ChatFlow} :
      ChatReach s → ChatReach { s with input := x }
  | sendStart (msg : String) {s : ChatFlow} :
      ChatReach s → ChatReach (handleSendStart msg s).1
  | sendFinish (outcome : Except UpstreamError GenAIResponse)
      (t : String → String) {s : ChatFlow} :
      ChatReach s → s.pending ≠ [] → ChatReach (handleSendFinish outcome t s)
  | regenerate (outcome : Except UpstreamError GenAIResponse)
      (t : String → String) {s : ChatFlow} :
      ChatReach s → ChatReach (handleRegenerate outcome t s)
  | clearChat (confirmed : Bool) {s : ChatFlow} :
      ChatReach s → ChatReach (handleClearChat confirmed s)

/-! ## Transform Invoker: components/TextProcessor.tsx -/

/-- The component state of TextProcessor.tsx that the transform claims are
about (`inputText`, `output`, `isLoading` — `output` is fed from the
service resolution value, so it is `Option String`), with the trace of
generateContent request bodies issued and the pending unsettled ones. -/
structure ProcFlow where
  inputText : String
  output : Option String
  isLoading : Bool
  calls : List String
  pending : List String
deriving DecidableEq, Repr

/-- Initial TextProcessor state: `inputText = ''`, `output = ''`,
`isLoading = false`. -/
def procInit : ProcFlow :=
  { inputText := "", output := some (""), isLoading := false, calls := [], pending := [] }

/-- Synchronous prefix of handleAction (TextProcessor.tsx): the guard
guarding on trimmed-empty text or a transform in flight, then `setIsLoading(true)`,
`setOutput('')`, and entry into processText up to its await — the request
body `fullPrompt prompt text` is built and the generateContent call is
issued.  Returns the new state and whether the guard was passed. -/
def handleActionStart (prompt text : String) (s : ProcFlow) : ProcFlow × Bool :=
  if jsTrim text == "" || s.isLoading then (s, false)
  else
    let body := fullPrompt prompt text
    ({ s with
        isLoading := true
        output := some ("")
        calls := s.calls ++ [body]
        pending := s.pending ++ [body] }, true)

/-- Continuation of handleAction once the awaited processText promise
settles with `outcome`: on fulfilment `setOutput(result)` where the result
is `response.text` unchanged (the imported service has no default); on
rejection the catch block sets the localized string
`t('processor.errorMessage')`; the finally block clears the loading flag. -/
def handleActionFinish (outcome : Except UpstreamError GenAIResponse)
    (t : String → String) (s : ProcFlow) : ProcFlow :=
  { s with
    output :=
      match outcome with
      | .ok response => response.text
      | .error _ => some (t ("processor.errorMessage"))
    isLoading := false
    pending := s.pending.drop 1 }

/-- A complete run of handleAction with no interleaved events. -/
def handleActionRun (prompt text : String)
    (outcome : Except UpstreamError GenAIResponse)
    (t : String → String) (s : ProcFlow) : ProcFlow :=
  let (s1, started) := handleActionStart prompt text s
  if started then handleActionFinish outcome t s1 else s1

/-- handleClearAll (TextProcessor.tsx): `setInputText(''); setOutput('');`. -/
def handleClearAll (s : ProcFlow) : ProcFlow :=
  { s with inputText := "", output := some ("") }

/-- The event-level semantics of the text-processor page: typing, starting a
transform, a pending transform settling, and clearing. -/
inductive ProcReach : ProcFlow → Prop where
  | init : ProcReach procInit
  | setInputText (x : String) {s : ProcFlow} :
      ProcReach s → ProcReach { s with inputText := x }
  | actionStart (prompt text : String) {s : ProcFlow} :
      ProcReach s → ProcReach (handleActionStart prompt text s).1
  | actionFinish (outcome : Except UpstreamError GenAIResponse)
      (t : String → String) {s : ProcFlow} :
      ProcReach s → s.pending ≠ [] → ProcReach (handleActionFinish outcome t s)
  | clearAll {s : ProcFlow} :
      ProcReach s → ProcReach (handleClearAll s)

/-! ## Prompt-template catalog: constants.ts -/

/-- A child entry of a menu template (a reply style or a translation
target): `{ id, label, prompt }`. -/
structure SubAction where
  id : String
  label : String
  prompt : String
deriving DecidableEq, Repr

/-- A top-level entry of the catalog in constants.ts: leaf entries carry a
`prompt`, menu entries carry `isMenu: true` and `subActions`. -/
structure PromptAction where
  id : String
  label : String
  prompt : Option String := none
  isMenu : Bool := false
  subActions : List SubAction := []
deriving DecidableEq, Repr

/-- getReplyStyles from constants.ts. -/
def getReplyStyles (t : String → String) : List SubAction :=
  [ { id := "reply-neutral"
      label := t ("processor.replyStyles.neutral")
      prompt := t ("processor.replyStyles.neutralPrompt") },
    { id := "reply-friendly"
      label := t ("processor.replyStyles.friendly")
      prompt := t ("processor.replyStyles.friendlyPrompt") },
    { id := "reply-sarcastic"
      label := t ("processor.replyStyles.sarcastic")
      prompt := t ("processor.replyStyles.sarcasticPrompt") } ]

/-- getPredefinedPrompts from constants.ts.  The labels and the leaf
instructions are localized through `t`; the translation targets carry fixed,
locale-independent instruction strings. -/
def getPredefinedPrompts (t : String → String) : List PromptAction :=
  [ { id := "summarize"
      label := t ("processor.prompts.summarize")
      prompt := some (t ("processor.prompts.summarizePrompt")) },
    { id := "expand-text"
      label := t ("processor.prompts.expandText")
      prompt := some (t ("processor.prompts.expandTextPrompt")) },
    { id := "reply-ai"
      label := t ("processor.prompts.replyAI")
      prompt := some (t ("processor.prompts.replyAIPrompt")) },
    { id := "quick-reply"
      label := t ("processor.prompts.quickReply")
      isMenu := true
      subActions := getReplyStyles t },
    { id := "translate"
      label := t ("processor.prompts.translate")
      isMenu := true
      subActions :=
        [ { id := "translate-vi", label := t ("processor.prompts.translateViTarget")
            prompt := "Translate the following text into Vietnamese:" },
          { id := "translate-en", label := t ("processor.prompts.translateEnTarget")
            prompt := "Translate the following text into English:" },
          { id := "translate-es", label := t ("processor.prompts.translateEsTarget")
            prompt := "Translate the following text into Spanish:" },
          { id := "translate-fr", label := t ("processor.prompts.translateFrTarget")
            prompt := "Translate the following text into French:" },
          { id := "translate-de", label := t ("processor.prompts.translateDeTarget")
            prompt := "Translate the following text into German:" },
          { id := "translate-ja", label := t ("processor.prompts.translateJaTarget")
            prompt := "Translate the following text into Japanese:" },
          { id := "translate-ko", label := t ("processor.prompts.translateKoTarget")
            prompt := "Translate the following text into Korean:" },
          { id := "translate-zh", label := t ("processor.prompts.translateZhTarget")
            prompt := "Translate the following text into Chinese (Simplified):" },
          { id := "translate-ru", label := t ("processor.prompts.translateRuTarget")
            prompt := "Translate the following text into Russian:" },
          { id := "translate-pt", label := t ("processor.prompts.translatePtTarget")
            prompt := "Translate the following text into Portuguese:" },
          { id := "translate-it", label := t ("processor.prompts.translateItTarget")
            prompt := "Translate the following text into Italian:" },
          { id := "translate-hi", label := t ("processor.prompts.translateHiTarget")
            prompt := "Translate the following text into Hindi:" },
          { id := "translate-ar", label := t ("processor.prompts.translateArTarget")
            prompt := "Translate the following text into Arabic:" },
          { id := "translate-nl", label := t ("processor.prompts.translateNlTarget")
            prompt := "Translate the following text into Dutch:" },
          { id := "translate-tr", label := t ("processor.prompts.translateTrTarget")
            prompt := "Translate the following text into Turkish:" } ] },
    { id := "fix-grammar"
      label := t ("processor.prompts.fixGrammar")
      prompt := some (t ("processor.prompts.fixGrammarPrompt")) },
    { id := "explain-like-im-5"
      label := t ("processor.prompts.explainLikeIm5")
      prompt := some (t ("processor.prompts.explainLikeIm5Prompt")) },
    { id := "json-converter"
      label := t ("processor.prompts.jsonConverter")
      prompt := some (t ("processor.prompts.jsonConverterPrompt")) } ]

/-! ## Shared helper lemmas -/

/-- When the guard of handleSend rejects (blank text after trim, or a turn
already in flight), the start phase changes nothing and starts nothing. -/
theorem handleSendStart_guard_rejects (msg : String) (s : ChatFlow)
    (h : (jsTrim msg == "" || s.isLoading) = true) :
    handleSendStart msg s = (s, false) := by
  unfold handleSendStart
  rw [if_pos h]

/-- When the guard of handleSend passes, the start phase appends exactly the
user message, clears the input, sets the loading flag, issues the
sendMessage request and registers the pending promise. -/
theorem handleSendStart_guard_passes (msg : String) (s : ChatFlow)
    (h : (jsTrim msg == "" || s.isLoading) = false) :
    handleSendStart msg s =
      ({ messages := s.messages ++ [{ role := .user, content := some msg }]
         input := ""
         isLoading := true
         svc := getChatResponseSend msg s.svc
         pending := s.pending ++ [msg] }, true) := by
  unfold handleSendStart
  rw [if_neg (by simp [h])]

/-- When the guard of handleAction rejects, the start phase changes nothing
and starts nothing. -/
theorem handleActionStart_guard_rejects (prompt text : String) (s : ProcFlow)
    (h : (jsTrim text == "" || s.isLoading) = true) :
    handleActionStart prompt text s = (s, false) := by
  unfold handleActionStart
  rw [if_pos h]

/-- When the guard of handleAction passes, the start phase clears the
output, sets the loading flag, and issues exactly one generateContent call
whose body is `fullPrompt prompt text`. -/
theorem handleActionStart_guard_passes (prompt text : String) (s : ProcFlow)
    (h : (jsTrim text == "" || s.isLoading) = false) :
    handleActionStart prompt text s =
      ({ inputText := s.inputText
         output := some ("")
         isLoading := true
         calls := s.calls ++ [fullPrompt prompt text]
         pending := s.pending ++ [fullPrompt prompt text] }, true) := by
  unfold handleActionStart
  rw [if_neg (by simp [h])]

/-! ## Claim C1 -/

/-- Claim C1 (refuted by the code): starting from the message sequence
[user:"Hi", model:"Hello"] with no turn in flight, handleRegenerate removes
the trailing model entry and then re-runs handleSend with the last user
text — and handleSend unconditionally appends a fresh user entry, so the
final sequence is [user:"Hi", user:"Hi", model:"Hi there!"]: exactly the
duplicated shape the claim forbids. -/
theorem handleRegenerate_duplicates_last_user_entry :
    (handleRegenerate (.ok { text := some ("Hi there!") }) (fun key => key)
      { messages := [{ role := .user, content := some ("Hi") },
                     { role := .model, content := some ("Hello") }]
        input := ""
        isLoading := false
        svc := { apiKey := "k", chat := some 0, nextChatId := 1, calls := [] }
        pending := [] }).messages
    = [{ role := .user, content := some ("Hi") },
       { role := .user, content := some ("Hi") },
       { role := .model, content := some ("Hi there!") }] := by
  decide

/-! ## Claim C2 -/

/-- Claim C2 (refuted by the code): when the external service fulfils with a
result carrying no text, the processText that the components import
(services/geminiService.ts) resolves with the absent value, not with the
empty string — only the unreferenced duplicate service
(src/services/geminiService.ts, embedded as processTextSrc) defaults the
missing text to the empty string as the claim states. -/
theorem processText_missing_text_not_defaulted :
    processText (fun _ => .ok { text := none })
        "Summarize the following text:" "Hello" = .ok none
    ∧ processText (fun _ => .ok { text := none })
        "Summarize the following text:" "Hello" ≠ .ok (some (""))
    ∧ processTextSrc (fun _ => .ok { text := none })
        "Summarize the following text:" "Hello" = .ok ("") := by
  refine ⟨rfl, ?_, rfl⟩
  intro h
  exact Option.noConfusion (Except.ok.inj h)

/-! ## Claim C9 -/

/-- Claim C9: module initialisation of the Gateway fails fast when the
API-key environment variable is absent, and succeeds with a (non-empty)
credential present, producing the fresh module state with no chat handle.
Every Gateway operation consumes the ServiceState that only a successful
initialisation produces, so no operation ever runs without a credential. -/
theorem initGeminiService_fails_fast_without_credential :
    initGeminiService none = .error ("API_KEY environment variable is not set")
    ∧ ∀ key : String, key ≠ "" →
        initGeminiService (some key) =
          .ok { apiKey := key, chat := none, nextChatId := 0, calls := [] } := by
  refine ⟨rfl, fun key hkey => ?_⟩
  simp [initGeminiService, hkey]

/-- Witness for C9 at a concrete credential. -/
theorem initGeminiService_fails_fast_without_credential_witness :
    initGeminiService (some ("test-credential")) =
      .ok { apiKey := "test-credential", chat := none, nextChatId := 0, calls := [] } :=
  initGeminiService_fails_fast_without_credential.2 ("test-credential") (by decide)

/-- A complete handleSend run under a rejected guard changes nothing. -/
theorem handleSendRun_guard_rejects (msg : String)
    (outcome : Except UpstreamError GenAIResponse) (t : String → String)
    (s : ChatFlow) (h : (jsTrim msg == "" || s.isLoading) = true) :
    handleSendRun msg outcome t s = s := by
  unfold handleSendRun
  rw [handleSendStart_guard_rejects msg s h]
  rfl

/-- A complete handleSend run under a passed guard is the finish phase
applied to the explicit post-start state. -/
theorem handleSendRun_guard_passes (msg : String)
    (outcome : Except UpstreamError GenAIResponse) (t : String → String)
    (s : ChatFlow) (h : (jsTrim msg == "" || s.isLoading) = false) :
    handleSendRun msg outcome t s =
      handleSendFinish outcome t
        { messages := s.messages ++ [{ role := .user, content := some msg }]
          input := ""
          isLoading := true
          svc := getChatResponseSend msg s.svc
          pending := s.pending ++ [msg] } := by
  unfold handleSendRun
  rw [handleSendStart_guard_passes msg s h]
  rfl

/-- A complete handleAction run under a rejected guard changes nothing. -/
theorem handleActionRun_guard_rejects (prompt text : String)
    (outcome : Except UpstreamError GenAIResponse) (t : String → String)
    (s : ProcFlow) (h : (jsTrim text == "" || s.isLoading) = true) :
    handleActionRun prompt text outcome t s = s := by
  unfold handleActionRun
  rw [handleActionStart_guard_rejects prompt text s h]
  rfl

/-- A complete handleAction run under a passed guard is the finish phase
applied to the explicit post-start state. -/
theorem handleActionRun_guard_passes (prompt text : String)
    (outcome : Except UpstreamError GenAIResponse) (t : String → String)
    (s : ProcFlow) (h : (jsTrim text == "" || s.isLoading) = false) :
    handleActionRun prompt text outcome t s =
      handleActionFinish outcome t
        { inputText := s.inputText
          output := some ("")
          isLoading := true
          calls := s.calls ++ [fullPrompt prompt text]
          pending := s.pending ++ [fullPrompt prompt text] } := by
  unfold handleActionRun
  rw [handleActionStart_guard_passes prompt text s h]
  rfl

/-! ## Claim C5 -/

/-- Claim C5: on blank or whitespace-only input both flows are no-ops — the
start phase starts nothing and a complete run returns the state unchanged,
so no Gateway call is issued (the call trace is part of the state), no
message is appended and no observable state changes. -/
theorem blank_input_is_noop :
    ∀ x : String, jsTrim x = "" →
      (∀ (s : ChatFlow) (outcome : Except UpstreamError GenAIResponse)
          (t : String → String),
        handleSendStart x s = (s, false) ∧ handleSendRun x outcome t s = s)
      ∧ (∀ (s : ProcFlow) (prompt : String)
          (outcome : Except UpstreamError GenAIResponse) (t : String → String),
        handleActionStart prompt x s = (s, false)
          ∧ handleActionRun prompt x outcome t s = s) := by
  intro x hx
  have hb : (jsTrim x == "") = true := by simp [hx]
  constructor
  · intro s outcome t
    have hg : (jsTrim x == "" || s.isLoading) = true := by simp [hb]
    exact ⟨handleSendStart_guard_rejects x s hg,
           handleSendRun_guard_rejects x outcome t s hg⟩
  · intro s prompt outcome t
    have hg : (jsTrim x == "" || s.isLoading) = true := by simp [hb]
    exact ⟨handleActionStart_guard_rejects prompt x s hg,
           handleActionRun_guard_rejects prompt x outcome t s hg⟩

/-- Witness for C5 on the whitespace-only input (" \n ") against the initial
states of both flows. -/
theorem blank_input_is_noop_witness :
    (handleSendStart (" \n ") (chatInit ("k")) = (chatInit ("k"), false)
      ∧ handleSendRun (" \n ") (.error { message := "down" }) (fun key => key)
          (chatInit ("k")) = chatInit ("k"))
    ∧ (handleActionStart ("Summarize:") " \n " procInit = (procInit, false)
      ∧ handleActionRun ("Summarize:") " \n " (.error { message := "down" })
          (fun key => key) procInit = procInit) :=
  ⟨((blank_input_is_noop (" \n ") (by decide)).1 (chatInit ("k"))
      (.error { message := "down" }) (fun key => key)),
   ((blank_input_is_noop (" \n ") (by decide)).2 procInit ("Summarize:")
      (.error { message := "down" }) (fun key => key))⟩

/-! ## Claim C8 -/

/-- Claim C8: on every execution path that passes the input/in-flight
guard — fulfilment, rejection, any settlement of the Gateway promise — the
finally block clears the loading flag before the operation completes, in
both handleSend and handleAction. -/
theorem inflight_flag_always_cleared :
    (∀ (s : ChatFlow) (msg : String)
        (outcome : Except UpstreamError GenAIResponse) (t : String → String),
      (handleSendStart msg s).2 = true →
        (handleSendRun msg outcome t s).isLoading = false)
    ∧ (∀ (s : ProcFlow) (prompt text : String)
        (outcome : Except UpstreamError GenAIResponse) (t : String → String),
      (handleActionStart prompt text s).2 = true →
        (handleActionRun prompt text outcome t s).isLoading = false) := by
  constructor
  · intro s msg outcome t hstarted
    by_cases hg : (jsTrim msg == "" || s.isLoading) = true
    · rw [handleSendStart_guard_rejects msg s hg] at hstarted
      exact absurd hstarted (by simp)
    · rw [handleSendRun_guard_passes msg outcome t s (by simpa using hg)]
      rfl
  · intro s prompt text outcome t hstarted
    by_cases hg : (jsTrim text == "" || s.isLoading) = true
    · rw [handleActionStart_guard_rejects prompt text s hg] at hstarted
      exact absurd hstarted (by simp)
    · rw [handleActionRun_guard_passes prompt text outcome t s (by simpa using hg)]
      rfl

/-- Witness for C8: a turn that starts from the initial state and then fails
upstream ends with the loading flag cleared, in both flows. -/
theorem inflight_flag_always_cleared_witness :
    (handleSendRun ("Hi") (.error { message := "down" }) (fun key => key)
        (chatInit ("k"))).isLoading = false
    ∧ (handleActionRun ("Summarize:") "Hi" (.error { message := "down" })
        (fun key => key) procInit).isLoading = false :=
  ⟨inflight_flag_always_cleared.1 (chatInit ("k")) "Hi"
      (.error { message := "down" }) (fun key => key) (by decide),
   inflight_flag_always_cleared.2 procInit ("Summarize:") "Hi"
      (.error { message := "down" }) (fun key => key) (by decide)⟩

/-! ## Claim C4 -/

/-- Claim C4: for every non-blank input and any instruction, a complete
handleAction run is a total function of the Gateway settlement — it stores
the reply text of a fulfilled call as the output, and stores exactly the
localized string for the key processor.errorMessage when the call fails; no
exception escapes the invoker (the embedding of the try/catch/finally is a
total function into ProcFlow). -/
theorem handleAction_stores_reply_or_localized_error :
    ∀ (t : String → String) (s : ProcFlow) (instruction x : String)
      (outcome : Except UpstreamError GenAIResponse),
      jsTrim x ≠ "" → s.isLoading = false →
      (handleActionRun instruction x outcome t s).output =
        match outcome with
        | .ok response => response.text
        | .error _ => some (t ("processor.errorMessage")) := by
  intro t s instruction x outcome hx hload
  rw [handleActionRun_guard_passes instruction x outcome t s
    (by simp [hx, hload])]
  rfl

/-- Witness for C4: from the initial state, a failing transform on input
"Hello" stores exactly the localized error string, and a fulfilled one
stores the reply text. -/
theorem handleAction_stores_reply_or_localized_error_witness :
    (handleActionRun ("Fix the grammar:") "Hello" (.error { message := "down" })
        (fun key => key) procInit).output = some ("processor.errorMessage")
    ∧ (handleActionRun ("Fix the grammar:") "Hello"
        (.ok { text := some ("Hello!") }) (fun key => key) procInit).output
        = some ("Hello!") :=
  ⟨handleAction_stores_reply_or_localized_error (fun key => key) procInit
      ("Fix the grammar:") ("Hello") (.error { message := "down" })
      (by decide) rfl,
   handleAction_stores_reply_or_localized_error (fun key => key) procInit
      ("Fix the grammar:") ("Hello") (.ok { text := some ("Hello!") })
      (by decide) rfl⟩

/-! ## Claim C10 -/

/-- Claim C10: a transform invocation on non-blank input clears the output
to the empty string at the point the generateContent call is issued (the
post-start state), leaves the input text untouched, and after a failed
invocation the output holds exactly the localized error string — the
previous result is not preserved — with the input text still untouched. -/
theorem handleAction_clears_output_before_call :
    ∀ (t : String → String) (s : ProcFlow) (instruction x : String)
      (e : UpstreamError),
      jsTrim x ≠ "" → s.isLoading = false →
      ((handleActionStart instruction x s).1.output = some ("")
        ∧ (handleActionStart instruction x s).1.inputText = s.inputText
        ∧ (handleActionStart instruction x s).1.isLoading = true
        ∧ (handleActionStart instruction x s).1.calls
            = s.calls ++ [fullPrompt instruction x])
      ∧ ((handleActionRun instruction x (.error e) t s).output
            = some (t ("processor.errorMessage"))
        ∧ (handleActionRun instruction x (.error e) t s).inputText
            = s.inputText) := by
  intro t s instruction x e hx hload
  have hg : (jsTrim x == "" || s.isLoading) = false := by simp [hx, hload]
  rw [handleActionStart_guard_passes instruction x s hg,
    handleActionRun_guard_passes instruction x (.error e) t s hg]
  exact ⟨⟨rfl, rfl, rfl, rfl⟩, ⟨rfl, rfl⟩⟩

/-- Witness for C10 at a state holding a previous successful output. -/
theorem handleAction_clears_output_before_call_witness :
    ((handleActionStart ("Summarize:") "Hello"
        { inputText := "Hello", output := some ("previous result")
          isLoading := false, calls := [], pending := [] }).1.output = some ("")
      ∧ (handleActionStart ("Summarize:") "Hello"
        { inputText := "Hello", output := some ("previous result")
          isLoading := false, calls := [], pending := [] }).1.inputText = "Hello"
      ∧ (handleActionStart ("Summarize:") "Hello"
        { inputText := "Hello", output := some ("previous result")
          isLoading := false, calls := [], pending := [] }).1.isLoading = true
      ∧ (handleActionStart ("Summarize:") "Hello"
        { inputText := "Hello", output := some ("previous result")
          isLoading := false, calls := [], pending := [] }).1.calls
          = [fullPrompt ("Summarize:") "Hello"])
    ∧ ((handleActionRun ("Summarize:") "Hello" (.error { message := "down" })
          (fun key => key)
          { inputText := "Hello", output := some ("previous result")
            isLoading := false, calls := [], pending := [] }).output
          = some ("processor.errorMessage")
      ∧ (handleActionRun ("Summarize:") "Hello" (.error { message := "down" })
          (fun key => key)
          { inputText := "Hello", output := some ("previous result")
            isLoading := false, calls := [], pending := [] }).inputText
          = "Hello") :=
  handleAction_clears_output_before_call (fun key => key)
    { inputText := "Hello", output := some ("previous result")
      isLoading := false, calls := [], pending := [] }
    "Summarize:" "Hello" { message := "down" } (by decide) rfl

/-! ## Claim C6 -/

/-- Claim C6: the request body of a transform is exactly the instruction
concatenated with the input text through the fixed delimiter (the only call
issued by a started handleAction); the translate menu of the catalog carries
the child translate-fr with the fixed instruction for French; and invoking
that child on the input ("Hello") issues exactly the request body
"Translate the following text into French:\n\n---\n\nHello". -/
theorem transform_request_body_is_delimited_concatenation :
    (∀ (s : ProcFlow) (instruction x : String),
      jsTrim x ≠ "" → s.isLoading = false →
        (handleActionStart instruction x s).1.calls
          = s.calls ++ [instruction ++ "\n\n---\n\n" ++ x])
    ∧ (∀ t : String → String,
        ((getPredefinedPrompts t).find? (fun p => p.id == "translate")).bind
            (fun p => (p.subActions.find? (fun a => a.id == "translate-fr")).map
              SubAction.prompt)
          = some ("Translate the following text into French:"))
    ∧ (handleActionStart ("Translate the following text into French:") "Hello"
        procInit).1.calls
        = ["Translate the following text into French:\n\n---\n\nHello"] := by
  refine ⟨fun s instruction x hx hload => ?_, fun t => ?_, ?_⟩
  · rw [handleActionStart_guard_passes instruction x s (by simp [hx, hload])]
    rfl
  · rfl
  · rw [handleActionStart_guard_passes ("Translate the following text into French:")
      "Hello" procInit (by decide)]
    decide

/-- Witness for C6: the generic request-body equation evaluated at the
French-translation child and the input ("Hello") from the initial state. -/
theorem transform_request_body_is_delimited_concatenation_witness :
    (handleActionStart ("Translate the following text into French:") "Hello"
        procInit).1.calls
      = [] ++ ["Translate the following text into French:" ++ "\n\n---\n\n"
          ++ "Hello"] :=
  transform_request_body_is_delimited_concatenation.1 procInit
    ("Translate the following text into French:") ("Hello") (by decide) rfl

/-! ## Claim C7 -/

/-- Claim C7: a confirmed handleClearChat empties the message sequence and
discards the conversational context handle (resetChat sets it to null), so
the next started handleSend goes through the create-new-context path: a
fresh Chat is constructed (the chatCreate call appears in the trace and the
stored handle is the fresh identifier) instead of reusing the previous
handle. -/
theorem clearChat_then_send_creates_fresh_context :
    ∀ (s : ChatFlow) (msg : String),
      s.isLoading = false → jsTrim msg ≠ "" →
      (handleClearChat true s).messages = []
      ∧ (handleClearChat true s).svc.chat = none
      ∧ (handleSendStart msg (handleClearChat true s)).1.svc.chat
          = some s.svc.nextChatId
      ∧ (handleSendStart msg (handleClearChat true s)).1.svc.calls
          = s.svc.calls
            ++ [.chatCreate s.svc.nextChatId, .chatSend s.svc.nextChatId msg] := by
  intro s msg hload hmsg
  have hclear : handleClearChat true s
      = { s with messages := [], svc := resetChat s.svc } := rfl
  have hg : (jsTrim msg == ""
      || (handleClearChat true s).isLoading) = false := by
    rw [hclear]
    simp [hmsg, hload]
  rw [handleSendStart_guard_passes msg (handleClearChat true s) hg]
  refine ⟨rfl, rfl, rfl, ?_⟩
  show (getChatResponseSend msg (resetChat s.svc)).calls = _
  simp [getChatResponseSend, getChatInstance, resetChat]

/-- Witness for C7 at a session that already holds a context handle and two
recorded calls. -/
theorem clearChat_then_send_creates_fresh_context_witness :
    (handleClearChat true
        { messages := [{ role := .user, content := some ("Hi") },
                       { role := .model, content := some ("Hello") }]
          input := ""
          isLoading := false
          svc := { apiKey := "k", chat := some 0, nextChatId := 1,
                   calls := [.chatCreate 0, .chatSend 0 ("Hi")] }
          pending := [] }).messages = []
    ∧ (handleClearChat true
        { messages := [{ role := .user, content := some ("Hi") },
                       { role := .model, content := some ("Hello") }]
          input := ""
          isLoading := false
          svc := { apiKey := "k", chat := some 0, nextChatId := 1,
                   calls := [.chatCreate 0, .chatSend 0 ("Hi")] }
          pending := [] }).svc.chat = none
    ∧ (handleSendStart ("Hi again") (handleClearChat true
        { messages := [{ role := .user, content := some ("Hi") },
                       { role := .model, content := some ("Hello") }]
          input := ""
          isLoading := false
          svc := { apiKey := "k", chat := some 0, nextChatId := 1,
                   calls := [.chatCreate 0, .chatSend 0 ("Hi")] }
          pending := [] })).1.svc.chat = some 1
    ∧ (handleSendStart ("Hi again") (handleClearChat true
        { messages := [{ role := .user, content := some ("Hi") },
                       { role := .model, content := some ("Hello") }]
          input := ""
          isLoading := false
          svc := { apiKey := "k", chat := some 0, nextChatId := 1,
                   calls := [.chatCreate 0, .chatSend 0 ("Hi")] }
          pending := [] })).1.svc.calls
        = [.chatCreate 0, .chatSend 0 ("Hi")]
          ++ [.chatCreate 1, .chatSend 1 ("Hi again")] :=
  clearChat_then_send_creates_fresh_context
    { messages := [{ role := .user, content := some ("Hi") },
                   { role := .model, content := some ("Hello") }]
      input := ""
      isLoading := false
      svc := { apiKey := "k", chat := some 0, nextChatId := 1,
               calls := [.chatCreate 0, .chatSend 0 ("Hi")] }
      pending := [] }
    "Hi again" rfl (by decide)

/-! ## Claim C3 -/

/-- One complete handleSend run preserves the single-slot correspondence
between the loading flag and the number of unresolved promises. -/
theorem handleSendRun_preserves_inflight (msg : String)
    (outcome : Except UpstreamError GenAIResponse) (t : String → String)
    (s : ChatFlow) (h : s.pending.length = if s.isLoading then 1 else 0) :
    (handleSendRun msg outcome t s).pending.length
      = if (handleSendRun msg outcome t s).isLoading then 1 else 0 := by
  by_cases hg : (jsTrim msg == "" || s.isLoading) = true
  · rw [handleSendRun_guard_rejects msg outcome t s hg]
    exact h
  · have hg' : (jsTrim msg == "" || s.isLoading) = false := by simpa using hg
    rw [handleSendRun_guard_passes msg outcome t s hg']
    have hload : s.isLoading = false := (Bool.or_eq_false_iff.mp hg').2
    have h0 : s.pending.length = 0 := by simp [h, hload]
    show ((s.pending ++ [msg]).drop 1).length = if false then 1 else 0
    simp [List.length_drop, List.length_append, h0]

/-- In every reachable chat state the number of unresolved getChatResponse
promises is exactly one while the loading flag is set and zero otherwise:
the flag is a faithful single-slot guard. -/
theorem chatReach_pending_length {s : ChatFlow} (h : ChatReach s) :
    s.pending.length = if s.isLoading then 1 else 0 := by
  induction h with
  | init apiKey => rfl
  | setInput x h ih => exact ih
  | sendStart msg h ih =>
    rename_i s
    by_cases hg : (jsTrim msg == "" || s.isLoading) = true
    · rw [handleSendStart_guard_rejects msg s hg]
      exact ih
    · have hg' : (jsTrim msg == "" || s.isLoading) = false := by simpa using hg
      rw [handleSendStart_guard_passes msg s hg']
      have hload : s.isLoading = false := (Bool.or_eq_false_iff.mp hg').2
      simp [List.length_append, ih, hload]
  | sendFinish outcome t h hne ih =>
    rename_i s
    have hload : s.isLoading = true := by
      by_contra hl
      have hl' : s.isLoading = false := by simpa using hl
      rw [hl'] at ih
      simp at ih
      exact hne ih
    have hlen : s.pending.length = 1 := by simp [ih, hload]
    show (s.pending.drop 1).length = if false then 1 else 0
    simp [List.length_drop, hlen]
  | regenerate outcome t h ih =>
    rename_i s
    unfold handleRegenerate
    by_cases hl : s.isLoading = true
    · rw [if_pos hl]
      exact ih
    · have hl' : s.isLoading = false := by simpa using hl
      rw [if_neg hl]
      cases hfind : s.messages.reverse.find? (fun m => m.role == .user) with
      | none => exact ih
      | some lastUserMessage =>
        dsimp only
        cases hc : lastUserMessage.content with
        | none => exact ih
        | some text =>
          dsimp only
          exact handleSendRun_preserves_inflight text outcome t _ ih
  | clearChat confirmed h ih =>
    rename_i s
    unfold handleClearChat
    by_cases hcf : confirmed = true
    · rw [if_pos hcf]
      exact ih
    · rw [if_neg hcf]
      exact ih

/-- In every reachable text-processor state the number of unresolved
processText promises is exactly one while the loading flag is set and zero
otherwise. -/
theorem procReach_pending_length {s : ProcFlow} (h : ProcReach s) :
    s.pending.length = if s.isLoading then 1 else 0 := by
  induction h with
  | init => rfl
  | setInputText x h ih => exact ih
  | actionStart prompt text h ih =>
    rename_i s
    by_cases hg : (jsTrim text == "" || s.isLoading) = true
    · rw [handleActionStart_guard_rejects prompt text s hg]
      exact ih
    · have hg' : (jsTrim text == "" || s.isLoading) = false := by simpa using hg
      rw [handleActionStart_guard_passes prompt text s hg']
      have hload : s.isLoading = false := (Bool.or_eq_false_iff.mp hg').2
      simp [List.length_append, ih, hload]
  | actionFinish outcome t h hne ih =>
    rename_i s
    have hload : s.isLoading = true := by
      by_contra hl
      have hl' : s.isLoading = false := by simpa using hl
      rw [hl'] at ih
      simp at ih
      exact hne ih
    have hlen : s.pending.length = 1 := by simp [ih, hload]
    show (s.pending.drop 1).length = if false then 1 else 0
    simp [List.length_drop, hlen]
  | clearAll h ih => exact ih

/-- Claim C3: a second postUserMessage while the first Gateway promise is
unresolved (loading flag set) is rejected by the guard — it issues no
Gateway call and appends no message, leaving the state untouched — and in
every reachable state of either flow at most one request is outstanding. -/
theorem at_most_one_request_in_flight :
    (∀ (s : ChatFlow) (msg : String), s.isLoading = true →
        handleSendStart msg s = (s, false))
    ∧ (∀ s : ChatFlow, ChatReach s → s.pending.length ≤ 1)
    ∧ (∀ (s : ProcFlow) (instruction x : String), s.isLoading = true →
        handleActionStart instruction x s = (s, false))
    ∧ (∀ s : ProcFlow, ProcReach s → s.pending.length ≤ 1) := by
  refine ⟨fun s msg hl => handleSendStart_guard_rejects msg s (by simp [hl]),
    fun s h => ?_,
    fun s instruction x hl =>
      handleActionStart_guard_rejects instruction x s (by simp [hl]),
    fun s h => ?_⟩
  · rw [chatReach_pending_length h]
    split <;> decide
  · rw [procReach_pending_length h]
    split <;> decide

/-- Witness for C3: from the initial states, one started send or transform
puts the flow in the loading state, where a second start is the identity,
and the reachable in-flight states carry exactly one pending request. -/
theorem at_most_one_request_in_flight_witness :
    handleSendStart ("Hi again") (handleSendStart ("Hi") (chatInit ("k"))).1
        = ((handleSendStart ("Hi") (chatInit ("k"))).1, false)
    ∧ (handleSendStart ("Hi") (chatInit ("k"))).1.pending.length ≤ 1
    ∧ handleActionStart ("Summarize:") "Hi again"
        (handleActionStart ("Summarize:") "Hi" procInit).1
        = ((handleActionStart ("Summarize:") "Hi" procInit).1, false)
    ∧ (handleActionStart ("Summarize:") "Hi" procInit).1.pending.length ≤ 1 :=
  ⟨at_most_one_request_in_flight.1 _ ("Hi again") (by decide),
   at_most_one_request_in_flight.2.1 _
     (ChatReach.sendStart ("Hi") (ChatReach.init ("k"))),
   at_most_one_request_in_flight.2.2.1 _ ("Summarize:") "Hi again" (by decide),
   at_most_one_request_in_flight.2.2.2 _
     (ProcReach.actionStart ("Summarize:") "Hi" ProcReach.init)⟩
